import Mathlib

/-!
Shallow embedding of the batch-validation exercises of the repository
(operations, service requests, financial transactions).

JavaScript numbers are idealized as rationals together with the three
non-finite values `NaN`, `Infinity` and `-Infinity`; `-0` is identified
with `0` (the two are indistinguishable by every operation this code
performs).  Non-integral rationals are rendered with a `num/den` notation
instead of JS decimal float printing; no message any claim depends on
interpolates a non-integral number.
-/

/-- A JavaScript number: a finite rational, `NaN`, `Infinity` or `-Infinity`. -/
inductive JNum where
  | fin (q : ℚ)
  | nan
  | pinf
  | ninf
deriving DecidableEq, Repr

/-- An array element as far as this code inspects one.  The validators
apply only `typeof` to array elements (and the classifiers only consume
numeric ones), so an element that is itself an array or a non-`Date`
object is represented by the opaque `JAtom.obj`. -/
inductive JAtom where
  | null
  | undef
  | num (x : JNum)
  | str (s : String)
  | bool (b : Bool)
  | date
  | obj
deriving DecidableEq, Repr

/-- A JavaScript runtime value, as far as the validators inspect one:
`null`, `undefined`, numbers, strings, booleans, `Date` objects (payload
irrelevant to this code), arrays and other (opaque) objects. -/
inductive JSVal where
  | null
  | undef
  | num (x : JNum)
  | str (s : String)
  | bool (b : Bool)
  | date
  | arr (elems : List JAtom)
  | obj
deriving DecidableEq, Repr

/-- Decidable equality for `Except` results (validation outcomes). -/
instance {ε α : Type} [DecidableEq ε] [DecidableEq α] : DecidableEq (Except ε α) :=
  fun x y =>
    match x, y with
    | .ok a, .ok b =>
      if h : a = b then .isTrue (by rw [h]) else .isFalse (fun hh => h (by injection hh))
    | .error a, .error b =>
      if h : a = b then .isTrue (by rw [h]) else .isFalse (fun hh => h (by injection hh))
    | .ok _, .error _ => .isFalse (fun hh => Except.noConfusion hh)
    | .error _, .ok _ => .isFalse (fun hh => Except.noConfusion hh)

/-- `typeof v` as a string, as JavaScript computes it. -/
def typeofStr : JSVal → String
  | .null => "object"
  | .undef => "undefined"
  | .num _ => "number"
  | .str _ => "string"
  | .bool _ => "boolean"
  | .date => "object"
  | .arr _ => "object"
  | .obj => "object"

/-- JavaScript truthiness of a value (`!v` is the negation of this). -/
def truthy : JSVal → Bool
  | .null => false
  | .undef => false
  | .num (.fin q) => q ≠ 0
  | .num .nan => false
  | .num .pinf => true
  | .num .ninf => true
  | .str s => s ≠ ""
  | .bool b => b
  | .date => true
  | .arr _ => true
  | .obj => true

/-- `Number.isFinite v`. -/
def isFiniteNum : JSVal → Bool
  | .num (.fin _) => true
  | _ => false

/-- `Number.isInteger v`. -/
def isIntegerNum : JSVal → Bool
  | .num (.fin q) => q.den == 1
  | _ => false

/-- `Array.isArray v`. -/
def isArrayVal : JSVal → Bool
  | .arr _ => true
  | _ => false

namespace JNum

/-- JavaScript `<` on numbers (`NaN` compares false with everything). -/
def jlt : JNum → JNum → Bool
  | .fin a, .fin b => a < b
  | .nan, _ => false
  | _, .nan => false
  | .ninf, .ninf => false
  | .ninf, _ => true
  | _, .ninf => false
  | .pinf, _ => false
  | .fin _, .pinf => true

/-- JavaScript `<=` on numbers (`NaN` compares false with everything). -/
def jle : JNum → JNum → Bool
  | .fin a, .fin b => a ≤ b
  | .nan, _ => false
  | _, .nan => false
  | .ninf, _ => true
  | _, .ninf => false
  | _, .pinf => true
  | .pinf, .fin _ => false

/-- JavaScript `+` on numbers. -/
def jadd : JNum → JNum → JNum
  | .fin a, .fin b => .fin (a + b)
  | .nan, _ => .nan
  | _, .nan => .nan
  | .pinf, .ninf => .nan
  | .ninf, .pinf => .nan
  | .pinf, _ => .pinf
  | _, .pinf => .pinf
  | .ninf, _ => .ninf
  | _, .ninf => .ninf

/-- JavaScript `*` on numbers. -/
def jmul : JNum → JNum → JNum
  | .fin a, .fin b => .fin (a * b)
  | .nan, _ => .nan
  | _, .nan => .nan
  | .pinf, .pinf => .pinf
  | .pinf, .ninf => .ninf
  | .ninf, .pinf => .ninf
  | .ninf, .ninf => .pinf
  | .pinf, .fin b => if b = 0 then .nan else if 0 < b then .pinf else .ninf
  | .fin a, .pinf => if a = 0 then .nan else if 0 < a then .pinf else .ninf
  | .ninf, .fin b => if b = 0 then .nan else if 0 < b then .ninf else .pinf
  | .fin a, .ninf => if a = 0 then .nan else if 0 < a then .ninf else .pinf

end JNum

/-- Rendering of a JS number in a template literal.  Integers print as in
JS; non-integral rationals use a `num/den` notation (a divergence from JS
float printing that no interpolated message in the claims exercises). -/
def renderNum : JNum → String
  | .fin q => if q.den = 1 then toString q.num else toString q.num ++ "/" ++ toString q.den
  | .nan => "NaN"
  | .pinf => "Infinity"
  | .ninf => "-Infinity"

/-- String conversion of an array element in a template literal. -/
def renderAtom : JAtom → String
  | .null => ""
  | .undef => ""
  | .num x => renderNum x
  | .str s => s
  | .bool b => if b then "true" else "false"
  | .date => "[Date]"
  | .obj => "[object Object]"

/-- String conversion of a value in a template literal / `String(v)`. -/
def render : JSVal → String
  | .null => "null"
  | .undef => "undefined"
  | .num x => renderNum x
  | .str s => s
  | .bool b => if b then "true" else "false"
  | .date => "[Date]"
  | .arr vs => String.intercalate "," (vs.map renderAtom)
  | .obj => "[object Object]"

/-- `typeof el` for an array element. -/
def typeofAtom : JAtom → String
  | .null => "object"
  | .undef => "undefined"
  | .num _ => "number"
  | .str _ => "string"
  | .bool _ => "boolean"
  | .date => "object"
  | .obj => "object"

/-- The per-record `Result` shape `{ id, estado, motivo }` shared by the
operations and requests pipelines. -/
structure Resultado where
  id : JSVal
  estado : String
  motivo : String
deriving DecidableEq, Repr

/-! ## Operations (ejercicio 2): `validarOperacion` / `procesarOperacion` -/

/-- The argument passed as an operation: either a primitive (non-object)
JS value, or an object with the four fields the code reads (`id`,
`valores`, `tipo`, `activa`), each an arbitrary JS value (`undef` models a
missing field).  A truthy primitive behaves exactly like an object all of
whose fields are `undefined`. -/
inductive OpInput where
  | prim (v : JSVal)
  | record (id valores tipo activa : JSVal)
deriving DecidableEq, Repr

namespace OpInput

/-- Truthiness of the whole argument (`!op`); objects are always truthy. -/
def truthySelf : OpInput → Bool
  | .prim v => truthy v
  | .record _ _ _ _ => true

/-- `op.id` (property access on a truthy primitive yields `undefined`). -/
def idVal : OpInput → JSVal
  | .prim _ => .undef
  | .record i _ _ _ => i

/-- `op.valores`. -/
def valoresVal : OpInput → JSVal
  | .prim _ => .undef
  | .record _ v _ _ => v

/-- `op.tipo`. -/
def tipoVal : OpInput → JSVal
  | .prim _ => .undef
  | .record _ _ t _ => t

/-- `op.activa`. -/
def activaVal : OpInput → JSVal
  | .prim _ => .undef
  | .record _ _ _ a => a

/-- `op?.id ?? "desconocido"`. -/
def idFallback (op : OpInput) : JSVal :=
  match op.idVal with
  | .null => .str "desconocido"
  | .undef => .str "desconocido"
  | v => v

end OpInput

/-- The element list of `op.valores` once it is known to be an array
(after validation); empty for non-arrays, which validation excludes. -/
def elemsOf : JSVal → List JAtom
  | .arr vs => vs
  | _ => []

/-- `validarOperacion(op)`: the seven structural checks, in source order,
each `throw` modeled as `Except.error` carrying the message.  On success
the function returns `undefined` (modeled `Except.ok ()`); it does not
return the record. -/
def validarOperacion (op : OpInput) : Except String Unit :=
  -- Regla 1: la operación debe existir
  if !op.truthySelf then
    .error "La operación se encuentra vacía o indefinida."
  -- Regla 2: id string o number
  else if typeofStr op.idVal ≠ "string" && typeofStr op.idVal ≠ "number" then
    .error ("Operación inválida: el id \"" ++ render op.idVal ++
      "\" no es válido (debe ser string o number).")
  -- Regla 3: valores debe ser un arreglo
  else if !isArrayVal op.valoresVal then
    .error ("Operación " ++ render op.idVal ++ ": 'valores' debe ser un arreglo.")
  -- Regla 4: el arreglo no puede estar vacío
  else if (elemsOf op.valoresVal).length = 0 then
    .error ("Operación " ++ render op.idVal ++ ": el arreglo de valores está vacío.")
  -- Regla 5: todos los elementos numéricos
  else if !(elemsOf op.valoresVal).all (fun v => typeofAtom v == "number") then
    .error ("Operación " ++ render op.idVal ++ ": todos los valores deben ser numéricos.")
  -- Regla 6: tipo string
  else if typeofStr op.tipoVal ≠ "string" then
    .error ("Operación " ++ render op.idVal ++ ": el tipo debe ser un string.")
  -- Regla 7: activa booleano
  else if typeofStr op.activaVal ≠ "boolean" then
    .error ("Operación " ++ render op.idVal ++ ": el campo 'activa' debe ser booleano.")
  else .ok ()

/-- One step of the JS `reduce` accumulator `(total, elemento) => total +
elemento`.  Non-numeric elements are unreachable after validation; JS
would coerce them, modeled here as `NaN`. -/
def jsAddVal (t : JNum) (e : JAtom) : JNum :=
  match e with
  | .num x => t.jadd x
  | _ => .nan

/-- One step of `(total, elemento) => total * elemento`. -/
def jsMulVal (t : JNum) (e : JAtom) : JNum :=
  match e with
  | .num x => t.jmul x
  | _ => .nan

/-- `calcularResultado(op)`: `switch (op.tipo)` dispatching the two
`reduce` folds, `default` case throwing the unrecognized-kind error. -/
def calcularResultado (valores : List JAtom) (tipo : JSVal) : Except String JNum :=
  if tipo = .str "suma" then
    .ok (valores.foldl jsAddVal (.fin 0))
  else if tipo = .str "multiplicacion" then
    .ok (valores.foldl jsMulVal (.fin 1))
  else
    .error ("Tipo de operación no reconocido: " ++ render tipo)

/-- `procesarOperacion(op)`: validation, the `activa` gate, the awaited
random delay (`lat` milliseconds — the suspension carries no data), the
computation, and the sign test; the surrounding try/catch converts every
throw into a rejection `Resultado`. -/
def procesarOperacion (lat : ℕ) (op : OpInput) : Resultado :=
  match validarOperacion op with
  | .error e => { id := op.idFallback, estado := "rechazada", motivo := "Error: " ++ e }
  | .ok _ =>
    if !truthy op.activaVal then
      { id := op.idVal, estado := "rechazada", motivo := "La operación está desactivada." }
    else
      -- await delay(tiempoAleatorio()) : resumes after `lat` ms, no data
      match calcularResultado (elemsOf op.valoresVal) op.tipoVal with
      | .error e => { id := op.idFallback, estado := "rechazada", motivo := "Error: " ++ e }
      | .ok r =>
        if r.jlt (.fin 0) then
          { id := op.idVal, estado := "rechazada",
            motivo := "El resultado (" ++ renderNum r ++ ") es negativo." }
        else
          { id := op.idVal, estado := "aprobada",
            motivo := "Operación realizada correctamente. Resultado = " ++ renderNum r }

/-- `arrObjeto()`: the fixed sample array of operations. -/
def arrObjeto : List OpInput :=
  [ .record (.num (.fin 1)) (.arr [.num (.fin 10), .num (.fin 20), .num (.fin 30)])
      (.str "suma") (.bool true),
    .record (.num (.fin 2)) (.arr [.num (.fin 2), .num (.fin 3), .num (.fin 4)])
      (.str "multiplicacion") (.bool true),
    .record (.num (.fin 3)) (.arr []) (.str "suma") (.bool true),
    .record (.num (.fin 4)) (.arr [.num (.fin 5), .str "x", .num (.fin 7)])
      (.str "suma") (.bool true),
    .record (.num (.fin 5)) (.arr [.num (.fin 10), .num (.fin (-50))])
      (.str "suma") (.bool true),
    .record (.num (.fin 6)) (.arr [.num (.fin 1), .num (.fin 2), .num (.fin 3)])
      (.str "division") (.bool true),
    .record (.num (.fin 7)) (.arr [.num (.fin 9), .num (.fin 9)])
      (.str "suma") (.bool false) ]

/-- `ejecutarOperaciones()`: the sequential `for...of` loop; `lat 0` is
the latency drawn for the first record, the stream is shifted for the
rest.  Produces the `resultados` list in input order. -/
def ejecutarOperacionesAux (lat : ℕ → ℕ) : List OpInput → List Resultado
  | [] => []
  | op :: rest =>
    procesarOperacion (lat 0) op :: ejecutarOperacionesAux (fun i => lat (i + 1)) rest

/-- `ejecutarOperaciones()` over a given input list. -/
def ejecutarOperaciones (lat : ℕ → ℕ) (ops : List OpInput) : List Resultado :=
  ejecutarOperacionesAux lat ops

/-- The summary counters of `ejecutarOperaciones`:
`resultados.filter(r => r.estado === "aprobada").length` and the same for
`"rechazada"`. -/
def resumenOperaciones (rs : List Resultado) : ℕ × ℕ :=
  ((rs.filter (fun r => r.estado == "aprobada")).length,
   (rs.filter (fun r => r.estado == "rechazada")).length)

/-! ## Service requests (ejercicio 3): `validarSolicitudConCallback` /
`procesarSolicitudConPromesa` / `ejecutarSolicitudes` -/

/-- The argument passed as a request: a primitive JS value or an object
with the six fields the code reads. -/
inductive SolInput where
  | prim (v : JSVal)
  | record (id cliente tipoServicio prioridad activo fechaSolicitud : JSVal)
deriving DecidableEq, Repr

namespace SolInput

/-- `!solicitud` negated. -/
def truthySelf : SolInput → Bool
  | .prim v => truthy v
  | .record _ _ _ _ _ _ => true

/-- `solicitud.id`. -/
def idVal : SolInput → JSVal
  | .prim _ => .undef
  | .record i _ _ _ _ _ => i

/-- `solicitud.cliente`. -/
def clienteVal : SolInput → JSVal
  | .prim _ => .undef
  | .record _ c _ _ _ _ => c

/-- `solicitud.tipoServicio`. -/
def tipoServicioVal : SolInput → JSVal
  | .prim _ => .undef
  | .record _ _ t _ _ _ => t

/-- `solicitud.prioridad`. -/
def prioridadVal : SolInput → JSVal
  | .prim _ => .undef
  | .record _ _ _ p _ _ => p

/-- `solicitud.activo`. -/
def activoVal : SolInput → JSVal
  | .prim _ => .undef
  | .record _ _ _ _ a _ => a

/-- `solicitud.fechaSolicitud`. -/
def fechaVal : SolInput → JSVal
  | .prim _ => .undef
  | .record _ _ _ _ _ f => f

/-- `solicitud?.id ?? "desconocido"`. -/
def idFallback (s : SolInput) : JSVal :=
  match s.idVal with
  | .null => .str "desconocido"
  | .undef => .str "desconocido"
  | v => v

end SolInput

/-- `s.trim()` of a JS string: strip leading and trailing whitespace
(structural implementation over the character list). -/
def jsTrim (s : String) : String :=
  .mk (((s.data.dropWhile Char.isWhitespace).reverse.dropWhile Char.isWhitespace).reverse)

/-- `s.toLowerCase()` of a JS string (structural implementation over the
character list). -/
def jsToLower (s : String) : String := .mk (s.data.map Char.toLower)

/-- The test of check 5 of `validarSolicitudConCallback`:
`typeof solicitud.prioridad !== "number" || solicitud.prioridad < 1 ||
solicitud.prioridad > 5` (JS comparisons: both are false for `NaN`). -/
def prioridadRechazable (pr : JSVal) : Bool :=
  typeofStr pr ≠ "number" ||
    (match pr with
     | .num p => p.jlt (.fin 1) || (JNum.fin 5).jlt p
     | _ => true)

/-- Checks 1–7 of `validarSolicitudConCallback`, in source order, each
`throw` modeled as `Except.error` carrying the message. -/
def validarSolicitudChecks (s : SolInput) : Except String Unit :=
  -- 1) Existencia del objeto
  if !s.truthySelf then
    .error "La solicitud se encuentra vacía o indefinida."
  -- 2) id numérico
  else if typeofStr s.idVal ≠ "number" then
    .error ("Solicitud inválida: id \"" ++ render s.idVal ++ "\" no es numérico.")
  -- 3) cliente string no vacío
  else if typeofStr s.clienteVal ≠ "string" ||
      (match s.clienteVal with | .str c => (jsTrim c).length = 0 | _ => true) then
    .error ("Solicitud " ++ render s.idVal ++
      ": el cliente debe ser un string y no debe estar vacío.")
  -- 4) tipoServicio string
  else if typeofStr s.tipoServicioVal ≠ "string" then
    .error ("Solicitud " ++ render s.idVal ++ ": el tipo de servicio debe ser un string.")
  -- 5) prioridad número en rango 1–5
  else if prioridadRechazable s.prioridadVal then
    .error ("Solicitud " ++ render s.idVal ++
      ": la prioridad debe ser un número entre 1 y 5.")
  -- 6) activo booleano
  else if typeofStr s.activoVal ≠ "boolean" then
    .error ("Solicitud " ++ render s.idVal ++ ": el campo 'activo' debe ser booleano.")
  -- 7) fecha string o Date
  else if !(typeofStr s.fechaVal = "string" || s.fechaVal = .date) then
    .error ("Solicitud " ++ render s.idVal ++ ": la fecha debe ser string o Date.")
  else .ok ()

/-- What `validarSolicitudConCallback` hands to its callback as the
second argument (the first is always `null`): either the original
`solicitud` object, or a `{ id, estado: "rechazada", motivo }` record. -/
inductive SolValidada where
  | solicitud (s : SolInput)
  | resultado (r : Resultado)
deriving DecidableEq, Repr

/-- `validarSolicitudConCallback(solicitud, callback)`: checks 1–7
(throws converted to a rejection by the catch), then the check-8 inactive
short-circuit, then success returning the unchanged record. -/
def validarSolicitudConCallback (s : SolInput) : SolValidada :=
  match validarSolicitudChecks s with
  | .error e =>
    .resultado { id := s.idFallback, estado := "rechazada", motivo := "Error: " ++ e }
  | .ok _ =>
    -- 8) Solicitud inactiva: rechazo inmediato, sin pasar por el clasificador
    if !truthy s.activoVal then
      .resultado { id := s.idVal, estado := "rechazada",
                   motivo := "La solicitud está inactiva." }
    else
      -- 9) Éxito en validación
      .solicitud s

/-- `procesarSolicitudConPromesa(solicitud)`: the awaited random delay
(`lat` ms, carrying no data), then the case-insensitive `switch` on
`tipoServicio`.  A non-string `tipoServicio` (unreachable from the
orchestrator, which only passes validated records) would make
`.toLowerCase()` throw; the catch resolves it as a rejection. -/
def procesarSolicitudConPromesa (lat : ℕ) (s : SolInput) : Resultado :=
  match s.tipoServicioVal with
  | .str t =>
    if jsToLower t = "instalacion" || jsToLower t = "mantenimiento" || jsToLower t = "soporte" then
      { id := s.idVal, estado := "aprobada",
        motivo := "Solicitud de " ++ t ++ " aprobada para cliente " ++
          render s.clienteVal ++ "." }
    else
      { id := s.idVal, estado := "rechazada",
        motivo := "Tipo de servicio no reconocido: " ++ t }
  | _ =>
    { id := s.idFallback, estado := "rechazada",
      motivo := "Error: solicitud.tipoServicio.toLowerCase is not a function" }

/-- The body of one iteration of `ejecutarSolicitudes`: validation, the
rechazada short-circuit (`continue`), else classification.  The boolean
records whether the Classifier (`procesarSolicitudConPromesa`) ran. -/
def procesarUnaSolicitud (lat : ℕ) (s : SolInput) : Resultado × Bool :=
  match validarSolicitudConCallback s with
  | .resultado r => (r, false)
  | .solicitud v => (procesarSolicitudConPromesa lat v, true)

/-- `ejecutarSolicitudes()`: the sequential `for...of` loop, collecting
`resultados` in input order. -/
def ejecutarSolicitudesAux (lat : ℕ → ℕ) : List SolInput → List Resultado
  | [] => []
  | s :: rest =>
    (procesarUnaSolicitud (lat 0) s).1 ::
      ejecutarSolicitudesAux (fun i => lat (i + 1)) rest

/-- `ejecutarSolicitudes()` over a given input list. -/
def ejecutarSolicitudes (lat : ℕ → ℕ) (sols : List SolInput) : List Resultado :=
  ejecutarSolicitudesAux lat sols

/-- The summary counters of `ejecutarSolicitudes`:
`resultados.filter(r => r.estado === "aprobada").length` and the same for
`"rechazada"`. -/
def resumenSolicitudes (rs : List Resultado) : ℕ × ℕ :=
  ((rs.filter (fun r => r.estado == "aprobada")).length,
   (rs.filter (fun r => r.estado == "rechazada")).length)

/-- `arrSolicitudes()`: the fixed sample array of requests. -/
def arrSolicitudes : List SolInput :=
  [ .record (.num (.fin 1)) (.str "Carlos") (.str "instalacion") (.num (.fin 3))
      (.bool true) (.str "2025-12-01"),
    .record (.num (.fin 2)) (.str "Ana") (.str "mantenimiento") (.num (.fin 5))
      (.bool true) .date,
    .record (.num (.fin 3)) (.str "") (.str "soporte") (.num (.fin 2))
      (.bool true) (.str "2025-12-02"),
    .record (.num (.fin 4)) (.str "Luis") (.str "auditoria") (.num (.fin 4))
      (.bool true) (.str "2025-12-03"),
    .record (.num (.fin 5)) (.str "Marta") (.str "soporte") (.num (.fin 7))
      (.bool true) (.str "2025-12-04"),
    .record (.num (.fin 6)) (.str "Pedro") (.str "instalacion") (.num (.fin 1))
      (.bool false) (.str "2025-12-05") ]

/-! ## Transactions (ejercicio 1): `validarTransaccionConCallback` /
`procesarTransaccionConPromesa` / `ejecutarAnalisis` -/

/-- The argument passed as a transaction: a primitive JS value or an
object with the six fields the code reads. -/
inductive TransInput where
  | prim (v : JSVal)
  | record (id usuario monto tipo autorizada fecha : JSVal)
deriving DecidableEq, Repr

namespace TransInput

/-- `!transaccion` negated. -/
def truthySelf : TransInput → Bool
  | .prim v => truthy v
  | .record _ _ _ _ _ _ => true

/-- `transaccion.id`. -/
def idVal : TransInput → JSVal
  | .prim _ => .undef
  | .record i _ _ _ _ _ => i

/-- `transaccion.usuario`. -/
def usuarioVal : TransInput → JSVal
  | .prim _ => .undef
  | .record _ u _ _ _ _ => u

/-- `transaccion.monto`. -/
def montoVal : TransInput → JSVal
  | .prim _ => .undef
  | .record _ _ m _ _ _ => m

/-- `transaccion.tipo`. -/
def tipoVal : TransInput → JSVal
  | .prim _ => .undef
  | .record _ _ _ t _ _ => t

/-- `transaccion.autorizada`. -/
def autorizadaVal : TransInput → JSVal
  | .prim _ => .undef
  | .record _ _ _ _ a _ => a

/-- `transaccion.fecha`. -/
def fechaVal : TransInput → JSVal
  | .prim _ => .undef
  | .record _ _ _ _ _ f => f

/-- `transaccion?.id ?? "desconocido"`. -/
def idFallback (t : TransInput) : JSVal :=
  match t.idVal with
  | .null => .str "desconocido"
  | .undef => .str "desconocido"
  | v => v

/-- `String(transaccion.tipo).toLowerCase()`. -/
def tipoLower (t : TransInput) : String := jsToLower (render t.tipoVal)

end TransInput

/-- `transaccion.monto <= 0` — JS `<=` on the `monto` field (after check
4 the field is a finite number; other shapes, unreachable there, follow
JS coercion loosely and are never exercised by any theorem below). -/
def montoLeZero (t : TransInput) : Bool :=
  match t.montoVal with
  | .num x => x.jle (.fin 0)
  | _ => false

/-- Structural checks 1–7 of `validarTransaccionConCallback`, in source
order, each `throw` modeled as `Except.error` carrying the message. -/
def validarTransChecks (t : TransInput) : Except String Unit :=
  -- 1) Existencia del objeto
  if !t.truthySelf then
    .error "La transacción está vacía o indefinida."
  -- 2) id entero positivo
  else if typeofStr t.idVal ≠ "number" || !isIntegerNum t.idVal ||
      (match t.idVal with | .num x => x.jle (.fin 0) | _ => true) then
    .error ("Transacción inválida: id \"" ++ render t.idVal ++ "\" debe ser entero positivo.")
  -- 3) usuario string no vacío
  else if typeofStr t.usuarioVal ≠ "string" ||
      (match t.usuarioVal with | .str u => (jsTrim u).length = 0 | _ => true) then
    .error ("Transacción " ++ render t.idVal ++ ": el usuario debe ser un string no vacío.")
  -- 4) monto número finito, no NaN, no cero
  else if typeofStr t.montoVal ≠ "number" || !isFiniteNum t.montoVal ||
      t.montoVal = .num (.fin 0) then
    .error ("Transacción " ++ render t.idVal ++
      ": el monto debe ser un número finito distinto de 0.")
  -- 5) tipo string
  else if typeofStr t.tipoVal ≠ "string" then
    .error ("Transacción " ++ render t.idVal ++ ": el tipo debe ser un string.")
  -- 6) autorizada boolean
  else if typeofStr t.autorizadaVal ≠ "boolean" then
    .error ("Transacción " ++ render t.idVal ++ ": el campo 'autorizada' debe ser booleano.")
  -- 7) fecha string o Date
  else if !(typeofStr t.fechaVal = "string" || t.fechaVal = .date) then
    .error ("Transacción " ++ render t.idVal ++ ": la fecha debe ser string o Date.")
  else .ok ()

/-- A classification record `{ id, clasificacion, motivo, [tipo],
[monto] }`; `tipo` and `monto` are present only on the `valida` /
`sospechosa` outcomes. -/
structure Clasificada where
  id : JSVal
  clasificacion : String
  motivo : String
  tipo : Option String := none
  monto : Option JSVal := none
deriving DecidableEq, Repr

/-- What `validarTransaccionConCallback` hands to its callback as second
argument: either the unchanged `transaccion`, or a `{ id, clasificacion:
"invalida", motivo }` record. -/
inductive TransValidada where
  | transaccion (t : TransInput)
  | clasificada (c : Clasificada)
deriving DecidableEq, Repr

/-- `validarTransaccionConCallback(transaccion, callback)` — the copy at
ejercicio1.js lines 18–82: structural checks (throws converted by the
catch), the two amount/kind coherence rules, and the success callback
returning the unchanged record. -/
def validarTransaccionConCallback (t : TransInput) : TransValidada :=
  match validarTransChecks t with
  | .error e =>
    .clasificada { id := t.idFallback, clasificacion := "invalida", motivo := "Error: " ++ e }
  | .ok _ =>
    -- 8) Reglas de coherencia de monto según tipo
    if t.tipoLower = "ingreso" && montoLeZero t then
      .clasificada { id := t.idVal, clasificacion := "invalida",
                     motivo := "Ingreso con monto <= 0 es incoherente." }
    else if t.tipoLower = "egreso" && montoLeZero t then
      .clasificada { id := t.idVal, clasificacion := "invalida",
                     motivo := "Egreso con monto <= 0 es incoherente." }
    else
      -- 9) Éxito en validación estructural
      .transaccion t

/-- The sequence of callback invocations performed by the copy of
`validarTransaccionConCallback` at ejercicio1.js lines 18–82, each as
(first argument, second argument); the first argument is always
`null`. -/
def validarTransaccionConCallbackCalls (t : TransInput) : List (JSVal × TransValidada) :=
  match validarTransChecks t with
  | .error e =>
    [(.null, .clasificada { id := t.idFallback, clasificacion := "invalida",
                            motivo := "Error: " ++ e })]
  | .ok _ =>
    if t.tipoLower = "ingreso" && montoLeZero t then
      [(.null, .clasificada { id := t.idVal, clasificacion := "invalida",
                              motivo := "Ingreso con monto <= 0 es incoherente." })]
    else if t.tipoLower = "egreso" && montoLeZero t then
      [(.null, .clasificada { id := t.idVal, clasificacion := "invalida",
                              motivo := "Egreso con monto <= 0 es incoherente." })]
    else
      [(.null, .transaccion t)]

/-- The sequence of callback invocations performed by the second copy of
`validarTransaccionConCallback` (ejercicio1.js lines 272–334), whose
success line `return callback(null, transaccion);` is commented out: on
the success path the function returns without invoking the callback. -/
def validarTransaccionConCallbackV2Calls (t : TransInput) : List (JSVal × TransValidada) :=
  match validarTransChecks t with
  | .error e =>
    [(.null, .clasificada { id := t.idFallback, clasificacion := "invalida",
                            motivo := "Error: " ++ e })]
  | .ok _ =>
    if t.tipoLower = "ingreso" && montoLeZero t then
      [(.null, .clasificada { id := t.idVal, clasificacion := "invalida",
                              motivo := "Ingreso con monto <= 0 es incoherente." })]
    else if t.tipoLower = "egreso" && montoLeZero t then
      [(.null, .clasificada { id := t.idVal, clasificacion := "invalida",
                              motivo := "Egreso con monto <= 0 es incoherente." })]
    else
      -- line 325: `// return callback(null, transaccion);`
      []

/-- `procesarTransaccionConPromesa(transaccion)`: the awaited random
delay (`lat` ms, carrying no data), then the kind test and the
`autorizada` split. -/
def procesarTransaccionConPromesa (lat : ℕ) (t : TransInput) : Clasificada :=
  if t.tipoLower ≠ "ingreso" && t.tipoLower ≠ "egreso" then
    { id := t.idVal, clasificacion := "invalida",
      motivo := "Tipo no reconocido: " ++ render t.tipoVal }
  else if t.autorizadaVal = .bool true then
    { id := t.idVal, clasificacion := "valida",
      motivo := "Transacción " ++ t.tipoLower ++ " autorizada para usuario " ++
        render t.usuarioVal ++ ".",
      tipo := some t.tipoLower, monto := some t.montoVal }
  else
    { id := t.idVal, clasificacion := "sospechosa",
      motivo := "Transacción " ++ t.tipoLower ++ " NO autorizada para usuario " ++
        render t.usuarioVal ++ ".",
      tipo := some t.tipoLower, monto := some t.montoVal }

/-- `arrTransacciones()`: the fixed sample array of transactions. -/
def arrTransacciones : List TransInput :=
  [ .record (.num (.fin 1)) (.str "Sebas") (.num (.fin 500)) (.str "ingreso")
      (.bool true) (.str "2025-12-01"),
    .record (.num (.fin 2)) (.str "Karol") (.num (.fin 300)) (.str "egreso")
      (.bool true) .date,
    .record (.num (.fin 3)) (.str "Juan") (.num (.fin (-200))) (.str "ingreso")
      (.bool true) (.str "2025-12-02"),
    .record (.num (.fin 4)) (.str "Nicolle") (.num (.fin 150)) (.str "egreso")
      (.bool false) (.str "2025-12-03"),
    .record (.num (.fin 5)) (.str "") (.num (.fin 100)) (.str "ingreso")
      (.bool true) (.str "2025-12-04"),
    .record (.num (.fin 6)) (.str "Santi") (.num (.fin 0)) (.str "egreso")
      (.bool true) (.str "2025-12-05"),
    .record (.num (.fin 7)) (.str "David") (.num (.fin 250)) (.str "transfer")
      (.bool true) (.str "2025-12-06") ]

/-- `undefined + x` / accumulating a possibly-missing `monto` field into
a running JS total (the missing case is unreachable: `monto` is always
set on the records whose amounts are accumulated). -/
def jsAddOptVal (tot : JNum) (v : Option JSVal) : JNum :=
  match v with
  | some (.num x) => tot.jadd x
  | _ => .nan

/-- The mutable state of one `ejecutarAnalisis` run: the four result
lists and the two running totals. -/
structure AnalisisState where
  resultados : List Clasificada := []
  validas : List Clasificada := []
  sospechosas : List Clasificada := []
  invalidas : List Clasificada := []
  totalIngresos : JNum := .fin 0
  totalEgresos : JNum := .fin 0
deriving DecidableEq, Repr

/-- One iteration of the `for...of` loop of `ejecutarAnalisis`.  The
validator only ever hands the loop either the unchanged transaction or a
record with `clasificacion = "invalida"` (see
`validar_trans_clasificada_invalida` below), so the source's
`validada.clasificacion === "invalida"` test is modeled by the match. -/
def pasoAnalisis (lat : ℕ) (st : AnalisisState) (t : TransInput) : AnalisisState :=
  match validarTransaccionConCallback t with
  | .clasificada v =>
    -- validada.clasificacion === "invalida": reportar y continuar
    { st with invalidas := st.invalidas ++ [v], resultados := st.resultados ++ [v] }
  | .transaccion v =>
    let procesada := procesarTransaccionConPromesa lat v
    let st := { st with resultados := st.resultados ++ [procesada] }
    if procesada.clasificacion = "valida" then
      let st := { st with validas := st.validas ++ [procesada] }
      if procesada.tipo = some "ingreso" then
        { st with totalIngresos := jsAddOptVal st.totalIngresos procesada.monto }
      else if procesada.tipo = some "egreso" then
        { st with totalEgresos := jsAddOptVal st.totalEgresos procesada.monto }
      else st
    else if procesada.clasificacion = "sospechosa" then
      { st with sospechosas := st.sospechosas ++ [procesada] }
    else
      { st with invalidas := st.invalidas ++ [procesada] }

/-- The loop of `ejecutarAnalisis` starting from a given state. -/
def ejecutarAnalisisAux (lat : ℕ → ℕ) (st : AnalisisState) : List TransInput → AnalisisState
  | [] => st
  | t :: rest =>
    ejecutarAnalisisAux (fun i => lat (i + 1)) (pasoAnalisis (lat 0) st t) rest

/-- `ejecutarAnalisis()` over a given input list, starting from the empty
state (`resultados = validas = sospechosas = invalidas = []`,
`totalIngresos = totalEgresos = 0`). -/
def ejecutarAnalisis (lat : ℕ → ℕ) (ts : List TransInput) : AnalisisState :=
  ejecutarAnalisisAux lat {} ts

/-- `balanceFinal = totalIngresos - totalEgresos` (JS subtraction on the
two totals; both are finite in every run, see C10). -/
def balanceFinal (st : AnalisisState) : JNum :=
  st.totalIngresos.jadd (st.totalEgresos.jmul (.fin (-1)))

/-- A `Clasificada` carrying a strictly positive finite amount. -/
def MontoPos (c : Clasificada) : Prop :=
  ∃ q : ℚ, 0 < q ∧ c.monto = some (.num (.fin q))

/-- Invariant of the `ejecutarAnalisis` state: every record in `validas`
carries a strictly positive finite amount, and both running totals are
finite. -/
def AnalisisInv (st : AnalisisState) : Prop :=
  (∀ c ∈ st.validas, MontoPos c) ∧
    (∃ a : ℚ, st.totalIngresos = .fin a) ∧ (∃ b : ℚ, st.totalEgresos = .fin b)

/-- `x` and `y` are finite and `x ≤ y`. -/
def FinMono (x y : JNum) : Prop :=
  ∃ a b : ℚ, x = .fin a ∧ y = .fin b ∧ a ≤ b

/-! ## Helper lemmas -/

/-- Two exclusive boolean predicates split the length of a list they
cover. -/
theorem filter_cover_length {α : Type} (p q : α → Bool) (l : List α)
    (h : ∀ x ∈ l, (p x = true ∧ q x = false) ∨ (p x = false ∧ q x = true)) :
    (l.filter p).length + (l.filter q).length = l.length := by
  induction l with
  | nil => simp
  | cons a l ih =>
    have ha := h a (List.mem_cons_self a l)
    have ih' := ih (fun x hx => h x (List.mem_cons_of_mem a hx))
    rcases ha with ⟨h1, h2⟩ | ⟨h1, h2⟩ <;> simp [List.filter_cons, h1, h2] <;> omega

/-- Every result of `procesarOperacion` is approved or rejected, never
anything else. -/
theorem procesarOperacion_estado (lat : ℕ) (op : OpInput) :
    (procesarOperacion lat op).estado = "aprobada" ∨
      (procesarOperacion lat op).estado = "rechazada" := by
  unfold procesarOperacion
  rcases validarOperacion op with e | u
  · exact Or.inr rfl
  · by_cases ha : !truthy op.activaVal
    · simp [ha]
    · simp only [ha, Bool.false_eq_true, if_false]
      rcases calcularResultado (elemsOf op.valoresVal) op.tipoVal with e | r
      · exact Or.inr rfl
      · by_cases hr : (JNum.jlt r (.fin 0)) <;> simp [hr]

/-- `ejecutarOperaciones` yields exactly one result per input record. -/
theorem ejecutarOperacionesAux_length (lat : ℕ → ℕ) (ops : List OpInput) :
    (ejecutarOperacionesAux lat ops).length = ops.length := by
  induction ops generalizing lat with
  | nil => rfl
  | cons op rest ih => simp [ejecutarOperacionesAux, ih]

/-- Every result collected by `ejecutarOperaciones` is approved or
rejected. -/
theorem ejecutarOperacionesAux_estado (lat : ℕ → ℕ) (ops : List OpInput) :
    ∀ r ∈ ejecutarOperacionesAux lat ops,
      r.estado = "aprobada" ∨ r.estado = "rechazada" := by
  induction ops generalizing lat with
  | nil => intro r hr; cases hr
  | cons op rest ih =>
    intro r hr
    rcases List.mem_cons.mp hr with h | h
    · exact h ▸ procesarOperacion_estado (lat 0) op
    · exact ih (fun i => lat (i + 1)) r h

/-- A rejection handed back by `validarSolicitudConCallback` always has
`estado = "rechazada"`. -/
theorem validarSolicitud_resultado_estado (s : SolInput) (r : Resultado)
    (h : validarSolicitudConCallback s = .resultado r) : r.estado = "rechazada" := by
  unfold validarSolicitudConCallback at h
  rcases hv : validarSolicitudChecks s with e | u <;> rw [hv] at h
  · cases h; rfl
  · by_cases ha : !truthy s.activoVal
    · rw [if_pos ha] at h; cases h; rfl
    · rw [if_neg ha] at h; cases h

/-- Every result of `procesarSolicitudConPromesa` is approved or
rejected. -/
theorem procesarSolicitud_estado (lat : ℕ) (s : SolInput) :
    (procesarSolicitudConPromesa lat s).estado = "aprobada" ∨
      (procesarSolicitudConPromesa lat s).estado = "rechazada" := by
  unfold procesarSolicitudConPromesa
  rcases s.tipoServicioVal with _ | _ | x | t | b | _ | vs | _ <;> simp
  by_cases ht : (jsToLower t = "instalacion" ∨ jsToLower t = "mantenimiento") ∨
      jsToLower t = "soporte"
  · rw [if_pos ht]; exact Or.inl rfl
  · rw [if_neg ht]; exact Or.inr rfl

/-- Every per-record result of the requests loop is approved or
rejected. -/
theorem procesarUnaSolicitud_estado (lat : ℕ) (s : SolInput) :
    (procesarUnaSolicitud lat s).1.estado = "aprobada" ∨
      (procesarUnaSolicitud lat s).1.estado = "rechazada" := by
  unfold procesarUnaSolicitud
  rcases hv : validarSolicitudConCallback s with v | r
  · simpa using procesarSolicitud_estado lat v
  · simpa using Or.inr (validarSolicitud_resultado_estado s r hv)

/-- `ejecutarSolicitudes` yields exactly one result per input record. -/
theorem ejecutarSolicitudesAux_length (lat : ℕ → ℕ) (sols : List SolInput) :
    (ejecutarSolicitudesAux lat sols).length = sols.length := by
  induction sols generalizing lat with
  | nil => rfl
  | cons s rest ih => simp [ejecutarSolicitudesAux, ih]

/-- Every result collected by `ejecutarSolicitudes` is approved or
rejected. -/
theorem ejecutarSolicitudesAux_estado (lat : ℕ → ℕ) (sols : List SolInput) :
    ∀ r ∈ ejecutarSolicitudesAux lat sols,
      r.estado = "aprobada" ∨ r.estado = "rechazada" := by
  induction sols generalizing lat with
  | nil => intro r hr; cases hr
  | cons s rest ih =>
    intro r hr
    rcases List.mem_cons.mp hr with h | h
    · exact h ▸ procesarUnaSolicitud_estado (lat 0) s
    · exact ih (fun i => lat (i + 1)) r h

/-- A rejection handed back by `validarTransaccionConCallback` always
carries `clasificacion = "invalida"` — which is why the source's
`validada.clasificacion === "invalida"` test in `ejecutarAnalisis` is
equivalent to testing which shape the callback received. -/
theorem validar_trans_clasificada_invalida (t : TransInput) (c : Clasificada)
    (h : validarTransaccionConCallback t = .clasificada c) : c.clasificacion = "invalida" := by
  unfold validarTransaccionConCallback at h
  rcases hv : validarTransChecks t with e | u <;> rw [hv] at h
  · cases h; rfl
  · by_cases h1 : (t.tipoLower = "ingreso" && montoLeZero t) = true
    · rw [if_pos h1] at h; cases h; rfl
    · rw [if_neg h1] at h
      by_cases h2 : (t.tipoLower = "egreso" && montoLeZero t) = true
      · rw [if_pos h2] at h; cases h; rfl
      · rw [if_neg h2] at h; cases h

/-- One loop iteration of `ejecutarAnalisis` grows `resultados` by one
record and grows exactly one of the three category lists by one
record. -/
theorem pasoAnalisis_counts (lat : ℕ) (st : AnalisisState) (t : TransInput) :
    (pasoAnalisis lat st t).resultados.length = st.resultados.length + 1 ∧
    (pasoAnalisis lat st t).validas.length + (pasoAnalisis lat st t).sospechosas.length +
        (pasoAnalisis lat st t).invalidas.length =
      st.validas.length + st.sospechosas.length + st.invalidas.length + 1 := by
  unfold pasoAnalisis
  rcases validarTransaccionConCallback t with v | c
  · by_cases h1 : (procesarTransaccionConPromesa lat v).clasificacion = "valida"
    · simp only [h1, if_true]
      by_cases h2 : (procesarTransaccionConPromesa lat v).tipo = some "ingreso"
      · simp [h2]; omega
      · simp only [h2, if_false]
        by_cases h3 : (procesarTransaccionConPromesa lat v).tipo = some "egreso" <;>
          simp [h3] <;> omega
    · simp only [h1, if_false]
      by_cases h2 : (procesarTransaccionConPromesa lat v).clasificacion = "sospechosa" <;>
        simp [h2] <;> omega
  · simp; omega

/-- Over any suffix of the loop, `resultados` grows by the number of
records processed and the three category lists absorb exactly one entry
per record. -/
theorem ejecutarAnalisisAux_counts (lat : ℕ → ℕ) (ts : List TransInput)
    (st : AnalisisState) :
    (ejecutarAnalisisAux lat st ts).resultados.length =
        st.resultados.length + ts.length ∧
    (ejecutarAnalisisAux lat st ts).validas.length +
        (ejecutarAnalisisAux lat st ts).sospechosas.length +
        (ejecutarAnalisisAux lat st ts).invalidas.length =
      st.validas.length + st.sospechosas.length + st.invalidas.length + ts.length := by
  induction ts generalizing lat st with
  | nil => simp [ejecutarAnalisisAux]
  | cons t rest ih =>
    have hp := pasoAnalisis_counts (lat 0) st t
    have hr := ih (fun i => lat (i + 1)) (pasoAnalisis (lat 0) st t)
    simp only [ejecutarAnalisisAux, List.length_cons]
    omega

/-- The latency value never reaches the data path of
`procesarOperacion`. -/
theorem procesarOperacion_lat_irrelevant (l1 l2 : ℕ) (op : OpInput) :
    procesarOperacion l1 op = procesarOperacion l2 op := rfl

/-- The latency value never reaches the data path of the requests
loop body. -/
theorem procesarUnaSolicitud_lat_irrelevant (l1 l2 : ℕ) (s : SolInput) :
    procesarUnaSolicitud l1 s = procesarUnaSolicitud l2 s := rfl

/-- The latency value never reaches the data path of one transactions
loop iteration. -/
theorem pasoAnalisis_lat_irrelevant (l1 l2 : ℕ) (st : AnalisisState) (t : TransInput) :
    pasoAnalisis l1 st t = pasoAnalisis l2 st t := rfl

/-- `ejecutarOperaciones` is insensitive to the drawn latency stream. -/
theorem ejecutarOperacionesAux_lat (l1 l2 : ℕ → ℕ) (ops : List OpInput) :
    ejecutarOperacionesAux l1 ops = ejecutarOperacionesAux l2 ops := by
  induction ops generalizing l1 l2 with
  | nil => rfl
  | cons op rest ih =>
    simp only [ejecutarOperacionesAux]
    exact congrArg₂ _ (procesarOperacion_lat_irrelevant (l1 0) (l2 0) op)
      (ih (fun i => l1 (i + 1)) (fun i => l2 (i + 1)))

/-- `ejecutarSolicitudes` is insensitive to the drawn latency stream. -/
theorem ejecutarSolicitudesAux_lat (l1 l2 : ℕ → ℕ) (sols : List SolInput) :
    ejecutarSolicitudesAux l1 sols = ejecutarSolicitudesAux l2 sols := by
  induction sols generalizing l1 l2 with
  | nil => rfl
  | cons s rest ih =>
    simp only [ejecutarSolicitudesAux]
    exact congrArg₂ _ (congrArg Prod.fst (procesarUnaSolicitud_lat_irrelevant (l1 0) (l2 0) s))
      (ih (fun i => l1 (i + 1)) (fun i => l2 (i + 1)))

/-- `ejecutarAnalisis` is insensitive to the drawn latency stream. -/
theorem ejecutarAnalisisAux_lat (l1 l2 : ℕ → ℕ) (st : AnalisisState)
    (ts : List TransInput) :
    ejecutarAnalisisAux l1 st ts = ejecutarAnalisisAux l2 st ts := by
  induction ts generalizing l1 l2 st with
  | nil => rfl
  | cons t rest ih =>
    simp only [ejecutarAnalisisAux]
    rw [pasoAnalisis_lat_irrelevant (l1 0) (l2 0) st t]
    exact ih (fun i => l1 (i + 1)) (fun i => l2 (i + 1)) _

/-- The sum fold over embedded rationals computes the rational sum. -/
theorem foldl_jsAddVal_fin (qs : List ℚ) (a : ℚ) :
    (qs.map (fun q => JAtom.num (.fin q))).foldl jsAddVal (.fin a) = .fin (a + qs.sum) := by
  induction qs generalizing a with
  | nil => simp
  | cons q qs ih =>
    simp only [List.map_cons, List.foldl_cons, jsAddVal, JNum.jadd, ih, List.sum_cons]
    rw [add_assoc]

/-- The product fold over embedded rationals computes the rational
product. -/
theorem foldl_jsMulVal_fin (qs : List ℚ) (a : ℚ) :
    (qs.map (fun q => JAtom.num (.fin q))).foldl jsMulVal (.fin a) = .fin (a * qs.prod) := by
  induction qs generalizing a with
  | nil => simp
  | cons q qs ih =>
    simp only [List.map_cons, List.foldl_cons, jsMulVal, JNum.jmul, ih, List.prod_cons]
    rw [mul_assoc]

/-- Check 4 guarantees the amount of a structurally valid transaction is
a finite, non-zero number. -/
theorem validarTransChecks_ok_monto (t : TransInput)
    (h : validarTransChecks t = .ok ()) :
    ∃ q : ℚ, t.montoVal = .num (.fin q) ∧ q ≠ 0 := by
  unfold validarTransChecks at h
  split at h; · exact Except.noConfusion h
  split at h; · exact Except.noConfusion h
  split at h; · exact Except.noConfusion h
  split at h
  · exact Except.noConfusion h
  · rename_i h4
    simp only [Bool.not_eq_true, Bool.or_eq_false_iff, decide_eq_false_iff_not,
      Bool.not_eq_false] at h4
    obtain ⟨⟨hnum, hfin⟩, hzero⟩ := h4
    rcases hm : t.montoVal with _ | _ | x | sv | b | _ | vs | _ <;>
      rw [hm] at hnum hfin hzero <;> simp [typeofStr] at hnum
    rcases x with q | _ | _ <;> simp [isFiniteNum] at hfin
    exact ⟨q, rfl, by simpa using hzero⟩

/-- After a successful validation the `tipo` field is a string. -/
theorem validarTransChecks_ok_tipo (t : TransInput)
    (h : validarTransChecks t = .ok ()) :
    ∃ s : String, t.tipoVal = .str s := by
  unfold validarTransChecks at h
  split at h; · exact Except.noConfusion h
  split at h; · exact Except.noConfusion h
  split at h; · exact Except.noConfusion h
  split at h; · exact Except.noConfusion h
  split at h
  · exact Except.noConfusion h
  · rename_i h5
    simp only [Bool.not_eq_true, decide_eq_false_iff_not, Decidable.not_not] at h5
    rcases ht : t.tipoVal with _ | _ | x | sv | b | _ | vs | _ <;>
      rw [ht] at h5 <;> simp [typeofStr] at h5
    exact ⟨sv, rfl⟩

/-- A record handed on unchanged by `validarTransaccionConCallback`
passed the structural checks and both coherence rules. -/
theorem validarTrans_transaccion_elim (t v : TransInput)
    (h : validarTransaccionConCallback t = .transaccion v) :
    v = t ∧ validarTransChecks t = .ok () ∧
      (t.tipoLower = "ingreso" → montoLeZero t = false) ∧
      (t.tipoLower = "egreso" → montoLeZero t = false) := by
  unfold validarTransaccionConCallback at h
  rcases hv : validarTransChecks t with e | u <;> rw [hv] at h
  · exact TransValidada.noConfusion h
  · by_cases h1 : (t.tipoLower = "ingreso" && montoLeZero t) = true
    · rw [if_pos h1] at h; exact TransValidada.noConfusion h
    · rw [if_neg h1] at h
      by_cases h2 : (t.tipoLower = "egreso" && montoLeZero t) = true
      · rw [if_pos h2] at h; exact TransValidada.noConfusion h
      · rw [if_neg h2] at h
        cases h
        simp only [Bool.and_eq_true, decide_eq_true_eq, not_and] at h1 h2
        refine ⟨rfl, rfl, fun hi => ?_, fun he => ?_⟩
        · simpa using h1 hi
        · simpa using h2 he

/-- The classifier marks a record "valida" only if it carries the
amount of a transaction that passed validation — and that amount is then
strictly positive. -/
theorem procesar_valida_monto_pos (l : ℕ) (t v : TransInput) (c : Clasificada)
    (hv : validarTransaccionConCallback t = .transaccion v)
    (hp : procesarTransaccionConPromesa l v = c)
    (hc : c.clasificacion = "valida") : MontoPos c := by
  obtain ⟨rfl, hok, hing, hegr⟩ := validarTrans_transaccion_elim t v hv
  obtain ⟨q, hm, hq0⟩ := validarTransChecks_ok_monto v hok
  unfold procesarTransaccionConPromesa at hp
  by_cases h1 : (v.tipoLower ≠ "ingreso" && v.tipoLower ≠ "egreso") = true
  · rw [if_pos h1] at hp; subst hp; simp at hc
  · rw [if_neg h1] at hp
    simp only [Bool.and_eq_true, decide_eq_true_eq, ne_eq, Bool.not_eq_true,
      decide_eq_false_iff_not, Decidable.not_not, not_and_or, not_not] at h1
    have hle : montoLeZero v = false := by
      rcases h1 with h1 | h1
      · exact hing h1
      · exact hegr h1
    have hpos : 0 < q := by
      rw [montoLeZero, hm] at hle
      simp only [JNum.jle, decide_eq_false_iff_not, not_le] at hle
      exact hle
    by_cases h2 : v.autorizadaVal = .bool true
    · rw [if_pos h2] at hp; subst hp
      exact ⟨q, hpos, by rw [hm]⟩
    · rw [if_neg h2] at hp; subst hp; simp at hc

theorem FinMono.rfl_of_fin {x : JNum} (h : ∃ a : ℚ, x = .fin a) : FinMono x x := by
  obtain ⟨a, ha⟩ := h; exact ⟨a, a, ha, ha, le_refl a⟩

theorem FinMono.trans {x y z : JNum} (h1 : FinMono x y) (h2 : FinMono y z) :
    FinMono x z := by
  obtain ⟨a, b, hx, hy, hab⟩ := h1
  obtain ⟨b2, c, hy2, hz, hbc⟩ := h2
  rw [hy] at hy2
  cases hy2
  exact ⟨a, c, hx, hz, le_trans hab hbc⟩

/-- One loop iteration preserves the invariant and never decreases
either running total. -/
theorem pasoAnalisis_inv (l : ℕ) (st : AnalisisState) (t : TransInput)
    (h : AnalisisInv st) :
    AnalisisInv (pasoAnalisis l st t) ∧
      FinMono st.totalIngresos (pasoAnalisis l st t).totalIngresos ∧
      FinMono st.totalEgresos (pasoAnalisis l st t).totalEgresos := by
  obtain ⟨hval, ⟨a, hta⟩, ⟨b, htb⟩⟩ := h
  unfold pasoAnalisis
  rcases hv : validarTransaccionConCallback t with v | c
  · by_cases h1 : (procesarTransaccionConPromesa l v).clasificacion = "valida"
    · have hpos : MontoPos (procesarTransaccionConPromesa l v) :=
        procesar_valida_monto_pos l t v _ hv rfl h1
      have hval' : ∀ c ∈ st.validas ++ [procesarTransaccionConPromesa l v], MontoPos c := by
        intro c hc
        rcases List.mem_append.mp hc with hc | hc
        · exact hval c hc
        · rcases List.mem_singleton.mp hc with rfl; exact hpos
      obtain ⟨q, hq, hmq⟩ := hpos
      by_cases h2 : (procesarTransaccionConPromesa l v).tipo = some "ingreso"
      · simp only [h1, if_true, h2]
        refine ⟨⟨hval', ⟨a + q, ?_⟩, ⟨b, htb⟩⟩, ⟨a, a + q, hta, ?_, by linarith⟩,
          FinMono.rfl_of_fin ⟨b, htb⟩⟩ <;>
          simp [jsAddOptVal, hmq, hta, JNum.jadd]
      · by_cases h3 : (procesarTransaccionConPromesa l v).tipo = some "egreso"
        · simp only [h1, if_true, h2, if_false, h3]
          refine ⟨⟨hval', ⟨a, hta⟩, ⟨b + q, ?_⟩⟩, FinMono.rfl_of_fin ⟨a, hta⟩,
            ⟨b, b + q, htb, ?_, by linarith⟩⟩ <;>
            simp [jsAddOptVal, hmq, htb, JNum.jadd]
        · simp only [h1, if_true, h2, if_false, h3]
          exact ⟨⟨hval', ⟨a, hta⟩, ⟨b, htb⟩⟩, FinMono.rfl_of_fin ⟨a, hta⟩,
            FinMono.rfl_of_fin ⟨b, htb⟩⟩
    · by_cases h2 : (procesarTransaccionConPromesa l v).clasificacion = "sospechosa" <;>
        simp only [h1, if_false, h2, if_true] <;>
        exact ⟨⟨hval, ⟨a, hta⟩, ⟨b, htb⟩⟩, FinMono.rfl_of_fin ⟨a, hta⟩,
          FinMono.rfl_of_fin ⟨b, htb⟩⟩
  · exact ⟨⟨hval, ⟨a, hta⟩, ⟨b, htb⟩⟩, FinMono.rfl_of_fin ⟨a, hta⟩,
      FinMono.rfl_of_fin ⟨b, htb⟩⟩

/-- The whole loop preserves the invariant and never decreases either
running total. -/
theorem ejecutarAnalisisAux_inv (lat : ℕ → ℕ) (ts : List TransInput)
    (st : AnalisisState) (h : AnalisisInv st) :
    AnalisisInv (ejecutarAnalisisAux lat st ts) ∧
      FinMono st.totalIngresos (ejecutarAnalisisAux lat st ts).totalIngresos ∧
      FinMono st.totalEgresos (ejecutarAnalisisAux lat st ts).totalEgresos := by
  induction ts generalizing lat st with
  | nil =>
    obtain ⟨hval, ha, hb⟩ := h
    exact ⟨⟨hval, ha, hb⟩, FinMono.rfl_of_fin ha, FinMono.rfl_of_fin hb⟩
  | cons t rest ih =>
    obtain ⟨hstep, hm1, hm2⟩ := pasoAnalisis_inv (lat 0) st t h
    obtain ⟨hinv, hn1, hn2⟩ := ih (fun i => lat (i + 1)) (pasoAnalisis (lat 0) st t) hstep
    exact ⟨hinv, FinMono.trans hm1 hn1, FinMono.trans hm2 hn2⟩

/-- Splitting a run of the loop at a list append. -/
theorem ejecutarAnalisisAux_append (lat : ℕ → ℕ) (st : AnalisisState)
    (l1 l2 : List TransInput) :
    ejecutarAnalisisAux lat st (l1 ++ l2) =
      ejecutarAnalisisAux (fun i => lat (i + l1.length)) (ejecutarAnalisisAux lat st l1) l2 := by
  induction l1 generalizing lat st with
  | nil => simp [ejecutarAnalisisAux]
  | cons t rest ih =>
    simp only [List.cons_append, ejecutarAnalisisAux, List.length_cons, List.append_eq]
    rw [ih]
    have harith : (fun i => lat (i + rest.length + 1)) = fun i => lat (i + (rest.length + 1)) := by
      funext i
      congr 1
    rw [harith]

/-! ## Claims -/

/-- C1 (corrected).  The original claim said `validarOperacion` itself
never raises and returns either the unchanged record or a rejection
Result; in fact it returns `undefined` on success and throws an `Error`
on every failed check (see the counterexample).  Amended: for every
input — including null, undefined or a malformed object —
`validarOperacion` either completes normally or throws; every throw is
caught by its caller `procesarOperacion`, which converts it into a
rejection `Resultado` whose reason is `"Error: "` plus the thrown
message, so the result is always an approval or a rejection and no
exception escapes to the orchestrator. -/
theorem claim_c1_validator_total (op : OpInput) (lat : ℕ) :
    (validarOperacion op = Except.ok () ∨ ∃ e, validarOperacion op = Except.error e) ∧
    (∀ e, validarOperacion op = Except.error e →
      procesarOperacion lat op =
        { id := op.idFallback, estado := "rechazada", motivo := "Error: " ++ e }) ∧
    ((procesarOperacion lat op).estado = "aprobada" ∨
      (procesarOperacion lat op).estado = "rechazada") := by
  refine ⟨?_, ?_, procesarOperacion_estado lat op⟩
  · rcases h : validarOperacion op with e | u
    · exact Or.inr ⟨e, rfl⟩
    · exact Or.inl rfl
  · intro e he
    unfold procesarOperacion
    rw [he]

/-- C1 witness: a null operation is turned into a rejection with the
thrown message by `procesarOperacion`. -/
theorem claim_c1_validator_total_witness :
    procesarOperacion 0 (OpInput.prim JSVal.null) =
      { id := .str "desconocido", estado := "rechazada",
        motivo := "Error: La operación se encuentra vacía o indefinida." } :=
  (claim_c1_validator_total (OpInput.prim JSVal.null) 0).2.1
    "La operación se encuentra vacía o indefinida." rfl

/-- C1 counterexample: on a null input `validarOperacion` raises an
`Error` to its caller (it does not return a rejection Result record),
contradicting the claim that it never raises. -/
theorem claim_c1_counterexample :
    validarOperacion (OpInput.prim JSVal.null) =
      Except.error "La operación se encuentra vacía o indefinida." := rfl

/-- C4 (confirmed).  For every run of each orchestrator — in particular
over its fixed sample array — the summary counts partition the results:
approved + rejected (operations, requests) or valid + suspicious +
invalid (transactions) equals the number of results collected, which
equals the length of the input array; no record is dropped or
double-counted, even when per-record failures occur. -/
theorem claim_c4_counts_partition (lat : ℕ → ℕ) (ops : List OpInput)
    (sols : List SolInput) (ts : List TransInput) :
    ((resumenOperaciones (ejecutarOperaciones lat ops)).1 +
        (resumenOperaciones (ejecutarOperaciones lat ops)).2 =
          (ejecutarOperaciones lat ops).length ∧
      (ejecutarOperaciones lat ops).length = ops.length) ∧
    ((resumenSolicitudes (ejecutarSolicitudes lat sols)).1 +
        (resumenSolicitudes (ejecutarSolicitudes lat sols)).2 =
          (ejecutarSolicitudes lat sols).length ∧
      (ejecutarSolicitudes lat sols).length = sols.length) ∧
    ((ejecutarAnalisis lat ts).validas.length +
        (ejecutarAnalisis lat ts).sospechosas.length +
        (ejecutarAnalisis lat ts).invalidas.length =
          (ejecutarAnalisis lat ts).resultados.length ∧
      (ejecutarAnalisis lat ts).resultados.length = ts.length) := by
  refine ⟨⟨?_, ejecutarOperacionesAux_length lat ops⟩,
    ⟨?_, ejecutarSolicitudesAux_length lat sols⟩, ?_, ?_⟩
  · apply filter_cover_length
    intro r hr
    rcases ejecutarOperacionesAux_estado lat ops r hr with h | h <;>
      simp [h]
  · apply filter_cover_length
    intro r hr
    rcases ejecutarSolicitudesAux_estado lat sols r hr with h | h <;>
      simp [h]
  · have h := ejecutarAnalisisAux_counts lat ts {}
    simp only [ejecutarAnalisis]
    simp at h
    omega
  · have h := ejecutarAnalisisAux_counts lat ts {}
    simp only [ejecutarAnalisis]
    simp at h
    omega

/-- C9 (confirmed).  The outcome and reason of every processed record
are independent of the randomly drawn latency values: two runs of any
orchestrator over the same input array, with arbitrary latency streams,
produce identical results (hence identical outcome and reason text per
record). -/
theorem claim_c9_latency_independent (l1 l2 : ℕ → ℕ) (ops : List OpInput)
    (sols : List SolInput) (ts : List TransInput) :
    ejecutarOperaciones l1 ops = ejecutarOperaciones l2 ops ∧
    ejecutarSolicitudes l1 sols = ejecutarSolicitudes l2 sols ∧
    ejecutarAnalisis l1 ts = ejecutarAnalisis l2 ts :=
  ⟨ejecutarOperacionesAux_lat l1 l2 ops, ejecutarSolicitudesAux_lat l1 l2 sols,
    ejecutarAnalisisAux_lat l1 l2 {} ts⟩

/-- C5 (confirmed).  For every structurally valid operation record the
classifier computes its result as a left fold of `valores`: kind "suma"
reduces with `+` from the neutral element 0, kind "multiplicacion"
reduces with `*` from the neutral element 1 (on embedded rationals these
folds are exactly the rational sum and product), and any other kind
yields an unrecognized-kind rejection whose reason names the kind. -/
theorem claim_c5_classifier_reduce (i vs tp act : JSVal)
    (hval : validarOperacion (.record i vs tp act) = Except.ok ()) :
    (tp = .str "suma" →
      calcularResultado (elemsOf vs) tp = .ok ((elemsOf vs).foldl jsAddVal (.fin 0))) ∧
    (tp = .str "multiplicacion" →
      calcularResultado (elemsOf vs) tp = .ok ((elemsOf vs).foldl jsMulVal (.fin 1))) ∧
    (tp ≠ .str "suma" → tp ≠ .str "multiplicacion" →
      calcularResultado (elemsOf vs) tp =
        .error ("Tipo de operación no reconocido: " ++ render tp)) ∧
    (∀ qs : List ℚ, vs = .arr (qs.map (fun q => JAtom.num (.fin q))) →
      (tp = .str "suma" → calcularResultado (elemsOf vs) tp = .ok (.fin qs.sum)) ∧
      (tp = .str "multiplicacion" →
        calcularResultado (elemsOf vs) tp = .ok (.fin qs.prod))) := by
  refine ⟨fun h1 => ?_, fun h2 => ?_, fun h1 h2 => ?_, fun qs hqs => ⟨fun h1 => ?_, fun h2 => ?_⟩⟩
  · simp [calcularResultado, h1]
  · simp [calcularResultado, h2]
  · simp [calcularResultado, h1, h2]
  · rw [hqs]
    simp only [calcularResultado, h1, if_true, elemsOf]
    rw [foldl_jsAddVal_fin qs 0, zero_add]
  · rw [hqs]
    simp only [calcularResultado, h2, elemsOf]
    rw [if_neg (show ¬(JSVal.str "multiplicacion" = JSVal.str "suma") from by decide),
      if_pos trivial, foldl_jsMulVal_fin qs 1, one_mul]

/-- C5 witness: the first sample operation `{id:1, valores:[10,20,30],
tipo:"suma", activa:true}` reduces to the sum of its values. -/
theorem claim_c5_classifier_reduce_witness :
    calcularResultado (elemsOf (.arr [.num (.fin 10), .num (.fin 20), .num (.fin 30)]))
      (.str "suma") = .ok (.fin (([10, 20, 30] : List ℚ).sum)) :=
  ((claim_c5_classifier_reduce (.num (.fin 1))
      (.arr [.num (.fin 10), .num (.fin 20), .num (.fin 30)]) (.str "suma") (.bool true)
      (by decide)).2.2.2 [10, 20, 30] rfl).1 rfl

/-- C6 (confirmed).  For every valid, active operation record whose
computed reduction is `r`: if `r < 0` the operation is rejected and
otherwise approved, the reason in both cases containing the rendered
numeric result; in particular the sample record `{id:5,
valores:[10,-50], tipo:"suma", activa:true}` (entry 4 of `arrObjeto`) is
rejected with a reason containing "-40". -/
theorem claim_c6_negative_result_rejected (i vs tp : JSVal) (lat : ℕ) (r : JNum)
    (hval : validarOperacion (.record i vs tp (.bool true)) = Except.ok ())
    (hcalc : calcularResultado (elemsOf vs) tp = .ok r) :
    ((r.jlt (.fin 0) = true →
        procesarOperacion lat (.record i vs tp (.bool true)) =
          { id := i, estado := "rechazada",
            motivo := "El resultado (" ++ renderNum r ++ ") es negativo." }) ∧
      (r.jlt (.fin 0) = false →
        procesarOperacion lat (.record i vs tp (.bool true)) =
          { id := i, estado := "aprobada",
            motivo := "Operación realizada correctamente. Resultado = " ++ renderNum r }) ∧
      (∃ pre post, (procesarOperacion lat (.record i vs tp (.bool true))).motivo =
        pre ++ renderNum r ++ post)) ∧
    (procesarOperacion lat (.record (.num (.fin 5))
        (.arr [.num (.fin 10), .num (.fin (-50))]) (.str "suma") (.bool true)) =
      { id := .num (.fin 5), estado := "rechazada",
        motivo := "El resultado (" ++ "-40" ++ ") es negativo." } ∧
      arrObjeto[4]? = some (.record (.num (.fin 5))
        (.arr [.num (.fin 10), .num (.fin (-50))]) (.str "suma") (.bool true))) := by
  have hbody : ∀ (j ws tq : JSVal) (s : JNum),
      validarOperacion (.record j ws tq (.bool true)) = Except.ok () →
      calcularResultado (elemsOf ws) tq = .ok s →
      procesarOperacion lat (.record j ws tq (.bool true)) =
        (if (JNum.jlt s (.fin 0)) then
          { id := j, estado := "rechazada",
            motivo := "El resultado (" ++ renderNum s ++ ") es negativo." }
        else
          { id := j, estado := "aprobada",
            motivo := "Operación realizada correctamente. Resultado = " ++ renderNum s }) := by
    intro j ws tq s hv hc
    unfold procesarOperacion
    rw [hv]
    simp only [OpInput.activaVal, truthy, Bool.not_true, Bool.false_eq_true, if_false]
    rw [show (OpInput.record j ws tq (.bool true)).valoresVal = ws from rfl,
      show (OpInput.record j ws tq (.bool true)).tipoVal = tq from rfl, hc]
    rfl
  refine ⟨⟨fun hneg => ?_, fun hpos => ?_, ?_⟩, ?_, by decide⟩
  · rw [hbody i vs tp r hval hcalc, if_pos hneg]
  · rw [hbody i vs tp r hval hcalc, if_neg (by simp [hpos])]
  · rw [hbody i vs tp r hval hcalc]
    by_cases hr : (JNum.jlt r (.fin 0)) = true
    · rw [if_pos hr]
      exact ⟨"El resultado (", ") es negativo.", rfl⟩
    · rw [if_neg (by simp [hr])]
      exact ⟨"Operación realizada correctamente. Resultado = ", "", by
        simp [String.append_empty]⟩
  · have hsum : ([10, -50] : List ℚ).sum = -40 := by norm_num
    have hc5 : calcularResultado (elemsOf (.arr [.num (.fin 10), .num (.fin (-50))]))
        (.str "suma") = .ok (.fin (-40)) := by
      have h := foldl_jsAddVal_fin [10, -50] 0
      rw [show (List.map (fun q => JAtom.num (JNum.fin q)) [10, -50]) =
        [JAtom.num (.fin 10), JAtom.num (.fin (-50))] from rfl, zero_add, hsum] at h
      simp only [calcularResultado, elemsOf, if_pos rfl]
      rw [h, if_pos trivial]
    rw [hbody (.num (.fin 5)) (.arr [.num (.fin 10), .num (.fin (-50))]) (.str "suma")
      (.fin (-40)) (by decide) hc5, if_pos (by decide),
      show renderNum (.fin (-40)) = "-40" from by decide]

/-- C6 witness: the sample record with values `[10, -50]` is rejected
with the rendered result -40 in the reason. -/
theorem claim_c6_negative_result_rejected_witness :
    procesarOperacion 0 (.record (.num (.fin 5)) (.arr [.num (.fin 10), .num (.fin (-50))])
        (.str "suma") (.bool true)) =
      { id := .num (.fin 5), estado := "rechazada",
        motivo := "El resultado (" ++ "-40" ++ ") es negativo." } :=
  ((claim_c6_negative_result_rejected (.num (.fin 1)) (.arr [.num (.fin 1)])
      (.str "suma") 0 (.fin ((0 : ℚ) + 1)) (by decide) rfl).2).1

/-- C7 (confirmed).  Every request record that passes all structural
type checks and has `activo == false` is short-circuited by the
Validator to a rejected Result whose reason says the request is
inactive, and the Classifier (`procesarSolicitudConPromesa`) is never
invoked for it (the `false` component of `procesarUnaSolicitud`
witnesses that the classification stage did not run). -/
theorem claim_c7_inactive_short_circuit (i cl ts pr f : JSVal) (lat : ℕ)
    (h : validarSolicitudChecks (.record i cl ts pr (.bool false) f) = Except.ok ()) :
    validarSolicitudConCallback (.record i cl ts pr (.bool false) f) =
      .resultado { id := i, estado := "rechazada",
                   motivo := "La solicitud está inactiva." } ∧
    procesarUnaSolicitud lat (.record i cl ts pr (.bool false) f) =
      ({ id := i, estado := "rechazada", motivo := "La solicitud está inactiva." },
        false) := by
  have h1 : validarSolicitudConCallback (.record i cl ts pr (.bool false) f) =
      .resultado { id := i, estado := "rechazada",
                   motivo := "La solicitud está inactiva." } := by
    unfold validarSolicitudConCallback
    rw [h]
    simp [SolInput.activoVal, truthy, SolInput.idVal]
  refine ⟨h1, ?_⟩
  unfold procesarUnaSolicitud
  rw [h1]

/-- C7 witness: the sample request `{id:6, cliente:"Pedro",
tipoServicio:"instalacion", prioridad:1, activo:false}` is rejected as
inactive without invoking the classifier. -/
theorem claim_c7_inactive_short_circuit_witness :
    procesarUnaSolicitud 0 (.record (.num (.fin 6)) (.str "Pedro") (.str "instalacion")
        (.num (.fin 1)) (.bool false) (.str "2025-12-05")) =
      ({ id := .num (.fin 6), estado := "rechazada",
         motivo := "La solicitud está inactiva." }, false) :=
  (claim_c7_inactive_short_circuit (.num (.fin 6)) (.str "Pedro") (.str "instalacion")
    (.num (.fin 1)) (.str "2025-12-05") 0 (by decide)).2

/-- C2 (corrected).  The original claim said every transaction with
`amount <= 0` and kind "ingreso"/"egreso" is classified invalid with the
coherence-specific reason regardless of the other fields; in fact check
4 rejects `amount === 0` first with the generic structural reason (see
the counterexample), and an earlier structural failure in another field
likewise pre-empts the coherence reason.  Amended: every transaction
record that passes the structural checks 1–7 with a strictly negative
amount and kind (case-insensitively) "ingreso" or "egreso" is classified
invalid with the corresponding coherence-specific reason. -/
theorem claim_c2_coherence_reason (i u tipo aut f : JSVal) (q : ℚ) (s : String)
    (hneg : q < 0) (htipo : tipo = .str s)
    (hkind : jsToLower s = "ingreso" ∨ jsToLower s = "egreso")
    (hchecks : validarTransChecks (.record i u (.num (.fin q)) tipo aut f) =
      Except.ok ()) :
    validarTransaccionConCallback (.record i u (.num (.fin q)) tipo aut f) =
      .clasificada { id := i, clasificacion := "invalida",
                     motivo := if jsToLower s = "ingreso" then
                         "Ingreso con monto <= 0 es incoherente."
                       else "Egreso con monto <= 0 es incoherente." } := by
  subst htipo
  unfold validarTransaccionConCallback
  rw [hchecks]
  have htl : (TransInput.record i u (.num (.fin q)) (.str s) aut f).tipoLower =
      jsToLower s := rfl
  have hml : montoLeZero (.record i u (.num (.fin q)) (.str s) aut f) = true := by
    simp only [montoLeZero, TransInput.montoVal, JNum.jle, decide_eq_true_eq]
    linarith
  rcases hkind with hk | hk
  · rw [if_pos (by rw [htl, hk, hml]; decide), if_pos hk]
    rfl
  · have hne : jsToLower s ≠ "ingreso" := by rw [hk]; decide
    rw [if_neg (by rw [htl, hk, hml]; simp), if_pos (by rw [htl, hk, hml]; decide),
      if_neg hne]
    rfl

/-- C2 witness: the sample transaction `{id:3, usuario:"Juan",
monto:-200, tipo:"ingreso", autorizada:true}` receives the
ingreso-coherence reason. -/
theorem claim_c2_coherence_reason_witness :
    validarTransaccionConCallback (.record (.num (.fin 3)) (.str "Juan")
        (.num (.fin (-200))) (.str "ingreso") (.bool true) (.str "2025-12-02")) =
      .clasificada { id := .num (.fin 3), clasificacion := "invalida",
                     motivo := if jsToLower "ingreso" = "ingreso" then
                         "Ingreso con monto <= 0 es incoherente."
                       else "Egreso con monto <= 0 es incoherente." } :=
  claim_c2_coherence_reason (.num (.fin 3)) (.str "Juan") (.str "ingreso") (.bool true)
    (.str "2025-12-02") (-200) "ingreso" (by decide) rfl (Or.inl (by decide)) (by decide)

/-- C2 counterexample: the sample transaction `{id:6, usuario:"Santi",
monto:0, tipo:"egreso", autorizada:true}` has `amount <= 0` and kind
"egreso", yet validation classifies it with the generic structural
check-4 reason, not the coherence-specific one. -/
theorem claim_c2_counterexample :
    validarTransaccionConCallback (.record (.num (.fin 6)) (.str "Santi") (.num (.fin 0))
        (.str "egreso") (.bool true) (.str "2025-12-05")) =
      .clasificada { id := .num (.fin 6), clasificacion := "invalida",
                     motivo := "Error: Transacción 6: el monto debe ser un número finito distinto de 0." } ∧
    "Error: Transacción 6: el monto debe ser un número finito distinto de 0." ≠
      "Egreso con monto <= 0 es incoherente." :=
  ⟨by decide, by decide⟩

/-- C3 (code_bug).  The copy of `validarTransaccionConCallback` at
ejercicio1.js lines 18–82 invokes its callback exactly once on every
input, always with `null` as the error argument — also on structurally
valid records, which it passes through unchanged.  The duplicated copy
at lines 272–334 contradicts both the claim and its own doc comment
("Si la transacción es estructuralmente válida: callback(null,
transaccion)"): its success line is commented out, so on the sample
valid transaction `{id:1, usuario:"Sebas", monto:500, tipo:"ingreso",
autorizada:true}` it returns without invoking the callback at all. -/
theorem claim_c3_callback_exactly_once :
    (∀ t : TransInput, (validarTransaccionConCallbackCalls t).map Prod.fst = [JSVal.null]) ∧
    validarTransaccionConCallbackCalls (.record (.num (.fin 1)) (.str "Sebas")
        (.num (.fin 500)) (.str "ingreso") (.bool true) (.str "2025-12-01")) =
      [(JSVal.null, .transaccion (.record (.num (.fin 1)) (.str "Sebas") (.num (.fin 500))
        (.str "ingreso") (.bool true) (.str "2025-12-01")))] ∧
    validarTransaccionConCallbackV2Calls (.record (.num (.fin 1)) (.str "Sebas")
        (.num (.fin 500)) (.str "ingreso") (.bool true) (.str "2025-12-01")) = [] := by
  refine ⟨?_, by decide, by decide⟩
  intro t
  unfold validarTransaccionConCallbackCalls
  rcases validarTransChecks t with e | u
  · rfl
  · by_cases h1 : (t.tipoLower = "ingreso" && montoLeZero t) = true
    · simp [h1]
    · by_cases h2 : (t.tipoLower = "egreso" && montoLeZero t) = true <;> simp [h1, h2]

/-- C8 (corrected).  The original claim said the Validator enforces that
priority is an *integer* in [1,5] and rejects e.g. 2.5; in fact check 5
is `typeof prioridad !== "number" || prioridad < 1 || prioridad > 5`,
which accepts any number in the range — the non-integer 2.5 passes
validation and the record is returned unchanged (see the
counterexample).  Amended: for every request passing checks 1–4, the
Validator rejects with the priority reason exactly when the priority is
not a number, compares < 1, or compares > 5 (JS comparison); otherwise
validation proceeds past the priority rule and can only fail the
`activo` or date checks. -/
theorem claim_c8_priority_rule (xi : JNum) (c tsv : String) (pr act f : JSVal)
    (hc : (jsTrim c).length ≠ 0) :
    (prioridadRechazable pr = true →
      validarSolicitudConCallback (.record (.num xi) (.str c) (.str tsv) pr act f) =
        .resultado { id := .num xi, estado := "rechazada",
                     motivo := "Error: " ++ ("Solicitud " ++ renderNum xi ++
                       ": la prioridad debe ser un número entre 1 y 5.") }) ∧
    (prioridadRechazable pr = false →
      (validarSolicitudChecks (.record (.num xi) (.str c) (.str tsv) pr act f) =
          Except.ok () ∨
        validarSolicitudChecks (.record (.num xi) (.str c) (.str tsv) pr act f) =
          .error ("Solicitud " ++ renderNum xi ++ ": el campo 'activo' debe ser booleano.") ∨
        validarSolicitudChecks (.record (.num xi) (.str c) (.str tsv) pr act f) =
          .error ("Solicitud " ++ renderNum xi ++ ": la fecha debe ser string o Date."))) := by
  have hchecks : validarSolicitudChecks (.record (.num xi) (.str c) (.str tsv) pr act f) =
      (if prioridadRechazable pr then
        .error ("Solicitud " ++ renderNum xi ++ ": la prioridad debe ser un número entre 1 y 5.")
      else if typeofStr act ≠ "boolean" then
        .error ("Solicitud " ++ renderNum xi ++ ": el campo 'activo' debe ser booleano.")
      else if !(typeofStr f = "string" || f = .date) then
        .error ("Solicitud " ++ renderNum xi ++ ": la fecha debe ser string o Date.")
      else .ok ()) := by
    unfold validarSolicitudChecks
    simp [SolInput.truthySelf, SolInput.idVal, SolInput.clienteVal,
      SolInput.tipoServicioVal, SolInput.prioridadVal, SolInput.activoVal,
      SolInput.fechaVal, typeofStr, hc, render]
  constructor
  · intro hp
    unfold validarSolicitudConCallback
    rw [hchecks, if_pos hp]
    rfl
  · intro hp
    rw [hchecks, if_neg (by simp [hp])]
    by_cases h6 : typeofStr act ≠ "boolean"
    · rw [if_pos h6]
      exact Or.inr (Or.inl rfl)
    · rw [if_neg h6]
      by_cases h7 : (!(typeofStr f = "string" || f = .date)) = true
      · rw [if_pos h7]
        exact Or.inr (Or.inr rfl)
      · rw [if_neg (by simpa using h7)]
        exact Or.inl rfl

/-- C8 witness: the sample request `{id:5, cliente:"Marta",
tipoServicio:"soporte", prioridad:7, activo:true}` is rejected with the
priority reason. -/
theorem claim_c8_priority_rule_witness :
    validarSolicitudConCallback (.record (.num (.fin 5)) (.str "Marta") (.str "soporte")
        (.num (.fin 7)) (.bool true) (.str "2025-12-04")) =
      .resultado { id := .num (.fin 5), estado := "rechazada",
                   motivo := "Error: " ++ ("Solicitud " ++ renderNum (.fin 5) ++
                     ": la prioridad debe ser un número entre 1 y 5.") } :=
  (claim_c8_priority_rule (.fin 5) "Marta" "soporte" (.num (.fin 7)) (.bool true)
    (.str "2025-12-04") (by decide)).1 (by decide)

/-- C8 counterexample: a request whose priority is the non-integer
number 5/2 (= 2.5), all other fields valid, passes validation and is
returned unchanged — not rejected with the priority reason as the claim
requires. -/
theorem claim_c8_counterexample :
    isIntegerNum (.num (.fin ⟨5, 2, by decide, by decide⟩)) = false ∧
    validarSolicitudConCallback (.record (.num (.fin 5)) (.str "Marta") (.str "soporte")
        (.num (.fin ⟨5, 2, by decide, by decide⟩)) (.bool true) (.str "2025-12-04")) =
      .solicitud (.record (.num (.fin 5)) (.str "Marta") (.str "soporte")
        (.num (.fin ⟨5, 2, by decide, by decide⟩)) (.bool true) (.str "2025-12-04")) ∧
    (⟨5, 2, by decide, by decide⟩ : ℚ) = 5 / 2 :=
  ⟨by decide, by decide, by rw [Rat.mk'_eq_divInt, Rat.divInt_eq_div]; norm_num⟩

/-- C10 (confirmed).  Every Result the classifier marks "valida" for a
record that previously passed `validarTransaccionConCallback` carries a
strictly positive finite amount (the coherence check, applied
case-insensitively to `tipo`, excludes `monto <= 0` for
"ingreso"/"egreso", and only those two kinds can be classified
"valida"); consequently in every run of `ejecutarAnalisis` the records
collected in `validas` all carry positive amounts, `totalIngresos` and
`totalEgresos` are finite and non-negative, and both totals are
monotone over the course of the run (the totals after processing a
prefix of `m` records never exceed those after any longer prefix). -/
theorem claim_c10_valida_amounts_positive (lat : ℕ → ℕ) (ts : List TransInput) :
    (∀ (l : ℕ) (t v : TransInput) (c : Clasificada),
      validarTransaccionConCallback t = .transaccion v →
      procesarTransaccionConPromesa l v = c →
      c.clasificacion = "valida" →
      ∃ q : ℚ, 0 < q ∧ c.monto = some (.num (.fin q))) ∧
    (∀ c ∈ (ejecutarAnalisis lat ts).validas,
      ∃ q : ℚ, 0 < q ∧ c.monto = some (.num (.fin q))) ∧
    (∃ qi qe : ℚ, 0 ≤ qi ∧ 0 ≤ qe ∧
      (ejecutarAnalisis lat ts).totalIngresos = .fin qi ∧
      (ejecutarAnalisis lat ts).totalEgresos = .fin qe) ∧
    (∀ m n : ℕ, m ≤ n →
      ∃ a b d e : ℚ,
        (ejecutarAnalisis lat (ts.take m)).totalIngresos = .fin a ∧
        (ejecutarAnalisis lat (ts.take n)).totalIngresos = .fin b ∧ a ≤ b ∧
        (ejecutarAnalisis lat (ts.take m)).totalEgresos = .fin d ∧
        (ejecutarAnalisis lat (ts.take n)).totalEgresos = .fin e ∧ d ≤ e) := by
  have hinv0 : AnalisisInv ({} : AnalisisState) := by
    refine ⟨?_, ⟨0, rfl⟩, ⟨0, rfl⟩⟩
    intro c hc
    cases hc
  refine ⟨fun l t v c hv hp hc => procesar_valida_monto_pos l t v c hv hp hc, ?_, ?_, ?_⟩
  · exact (ejecutarAnalisisAux_inv lat ts {} hinv0).1.1
  · obtain ⟨_, ⟨a, b, ha, hb, hab⟩, ⟨d, e, hd, he, hde⟩⟩ :=
      ejecutarAnalisisAux_inv lat ts {} hinv0
    have ha0 : a = 0 := by cases ha; rfl
    have hd0 : d = 0 := by cases hd; rfl
    exact ⟨b, e, by rw [← ha0]; exact hab, by rw [← hd0]; exact hde, hb, he⟩
  · intro m n hmn
    have hmm : ts.take m = (ts.take n).take m := by
      rw [List.take_take, Nat.min_comm, Nat.min_eq_right hmn]
    have hsplit : ts.take n = ts.take m ++ (ts.take n).drop m := by
      conv_lhs => rw [← List.take_append_drop m (ts.take n)]
      rw [← hmm]
    have hstate : ejecutarAnalisis lat (ts.take n) =
        ejecutarAnalisisAux (fun i => lat (i + (ts.take m).length))
          (ejecutarAnalisis lat (ts.take m)) ((ts.take n).drop m) := by
      unfold ejecutarAnalisis
      rw [hsplit, ejecutarAnalisisAux_append, ← hsplit]
    obtain ⟨_, ⟨a, b, ha, hb, hab⟩, ⟨d, e, hd, he, hde⟩⟩ :=
      ejecutarAnalisisAux_inv (fun i => lat (i + (ts.take m).length))
        ((ts.take n).drop m) (ejecutarAnalisis lat (ts.take m))
        (ejecutarAnalisisAux_inv lat (ts.take m) {} hinv0).1
    refine ⟨a, b, d, e, ha, ?_, hab, hd, ?_, hde⟩
    · rw [hstate]; exact hb
    · rw [hstate]; exact he

/-- C10 witness: the first sample transaction (Sebas, ingreso, 500,
authorized) is classified "valida" and the positivity theorem yields its
strictly positive amount. -/
theorem claim_c10_valida_amounts_positive_witness :
    ∃ q : ℚ, 0 < q ∧
      (procesarTransaccionConPromesa 0 (.record (.num (.fin 1)) (.str "Sebas")
        (.num (.fin 500)) (.str "ingreso") (.bool true) (.str "2025-12-01"))).monto =
        some (.num (.fin q)) :=
  (claim_c10_valida_amounts_positive (fun _ => 0) []).1 0
    (.record (.num (.fin 1)) (.str "Sebas") (.num (.fin 500)) (.str "ingreso")
      (.bool true) (.str "2025-12-01"))
    (.record (.num (.fin 1)) (.str "Sebas") (.num (.fin 500)) (.str "ingreso")
      (.bool true) (.str "2025-12-01"))
    (procesarTransaccionConPromesa 0 (.record (.num (.fin 1)) (.str "Sebas")
      (.num (.fin 500)) (.str "ingreso") (.bool true) (.str "2025-12-01")))
    (by decide) rfl (by decide)
